import Mathlib

/-!
Shallow embedding of the question-generator pipeline (sections → semantic
classification → adaptive batching → LLM response reconciliation → validation)
of the `v2-question-generator` repository, together with theorems settling the
frozen claims about it.

Modelling conventions:
* Python `float` arithmetic is modelled over `ℚ` (exact rationals); `round(x, 4)`
  is modelled as rounding to the nearest multiple of `1/10000`.
* Python exceptions are modelled with `Except String`; a `try/except` block
  corresponds to discarding the `.error` case.
* Python `json.loads` (an external library call) is modelled by a concrete
  recursive-descent parser `jsonLoads` over a `Json` inductive that mirrors the
  dict/list/str/int/float/bool/None values `json.loads` can produce.  `NaN` /
  `Infinity` literals (floating point) are outside the model.
* Python dicts are modelled as association lists with unique keys, insertion
  ordered; `d[k] = v` keeps the position of an existing key, as in CPython.
-/

/-- JSON-like Python values produced by `json.loads`.  `int` and `float` are kept
separate because the reconciler branches on `isinstance(x, int)`. -/
inductive Json where
  | null : Json
  | bool (b : Bool) : Json
  | int (n : Int) : Json
  | float (q : ℚ) : Json
  | str (s : String) : Json
  | arr (xs : List Json) : Json
  | obj (kvs : List (String × Json)) : Json

/-- Python truthiness (`bool(x)`) on JSON-like values. -/
def Json.falsy : Json → Bool
  | .null => true
  | .bool b => !b
  | .int n => n == 0
  | .float q => q == 0
  | .str s => s == ""
  | .arr xs => xs.isEmpty
  | .obj kvs => kvs.isEmpty

/-- `isinstance(x, list)`. -/
def Json.isArr : Json → Bool
  | .arr _ => true
  | _ => false

/-- `d.get(k)`: first (and, for dicts built here, only) binding of `k`. -/
def dictGet (kvs : List (String × Json)) (k : String) : Option Json :=
  (kvs.find? (fun kv => kv.1 == k)).map (·.2)

/-- `d.get(k, dflt)`. -/
def dictGetD (kvs : List (String × Json)) (k : String) (dflt : Json) : Json :=
  (dictGet kvs k).getD dflt

/-- `d[k] = v`: replace the value at an existing key in place, else append. -/
def dictSet (kvs : List (String × Json)) (k : String) (v : Json) :
    List (String × Json) :=
  match kvs with
  | [] => [(k, v)]
  | kv :: rest =>
    if kv.1 == k then (k, v) :: rest else kv :: dictSet rest k v

/-- `k in d`. -/
def dictHas (kvs : List (String × Json)) (k : String) : Bool :=
  (kvs.find? (fun kv => kv.1 == k)).isSome

/-- `\x7b**base, **extra\x7d`: merge two dicts, the second overriding. -/
def dictMerge (base extra : List (String × Json)) : List (String × Json) :=
  extra.foldl (fun acc kv => dictSet acc kv.1 kv.2) base

/- ---------------------------------------------------------------------------
String scanning helpers (Python `in`, `str.split`, `re` fragments used by the
reconciler).  They operate on `List Char`.
--------------------------------------------------------------------------- -/

/-- Split at the first occurrence of `sep` (a non-empty pattern): returns the
text before it and the text after it, or `none` when `sep` does not occur. -/
def splitFirst (sep : List Char) : List Char → Option (List Char × List Char)
  | [] => if sep.isPrefixOf ([] : List Char) then some ([], []) else none
  | c :: rest =>
    if sep.isPrefixOf (c :: rest) then some ([], (c :: rest).drop sep.length)
    else match splitFirst sep rest with
      | some (pre, post) => some (c :: pre, post)
      | none => none

/-- Python `sub in s` for a non-empty `sub`. -/
def containsSub (s sub : String) : Bool :=
  (splitFirst sub.data s.data).isSome

/-- Python `str.strip()` (ASCII whitespace; implemented over the char list so
that it reduces in the kernel). -/
def pyStrip (s : String) : String :=
  String.mk (((s.data.dropWhile Char.isWhitespace).reverse.dropWhile
    Char.isWhitespace).reverse)

/-- Python `str.lower()` (ASCII). -/
def pyLower (s : String) : String :=
  String.mk (s.data.map Char.toLower)

/-- Replace every non-overlapping occurrence of `pat`, left to right. -/
def pyReplaceAux (fuel : ℕ) (pat rep cs : List Char) : List Char :=
  match fuel with
  | 0 => cs
  | fuel + 1 =>
    match splitFirst pat cs with
    | none => cs
    | some (pre, post) => pre ++ rep ++ pyReplaceAux fuel pat rep post

/-- Python `str.replace(pat, rep)` for a non-empty `pat`. -/
def pyReplace (s pat rep : String) : String :=
  String.mk (pyReplaceAux (s.length + 1) pat.data rep.data s.data)

/-- Prefix of `l` up to and including the last occurrence of `ch`
(meaningful only when `ch ∈ l`). -/
def takeUpToLast (l : List Char) (ch : Char) : List Char :=
  l.take (l.length - (l.reverse.takeWhile (fun c => c ≠ ch)).length)

/-- The match of `re.search(r'(\x7b.*\x7d|\[.*\])', content, re.DOTALL)`: the
first position holding `\x7b` with a later `\x7d` (or `[` with a later `]`)
starts the match, and the greedy `.*` extends it to the last such closer. -/
def graspSpan : List Char → Option (List Char)
  | [] => none
  | c :: rest =>
    if c = '\x7b' && rest.contains '\x7d' then
      some ('\x7b' :: takeUpToLast rest '\x7d')
    else if c = '[' && rest.contains ']' then
      some ('[' :: takeUpToLast rest ']')
    else graspSpan rest

/-- `re.sub(r'<thought>.*?</thought>', '', content, flags=re.DOTALL)`: each
non-greedy match spans from a literal `<thought>` to the first `</thought>`
after it; matches are removed left to right.  A `<thought>` with no
`</thought>` anywhere after it matches nothing. -/
def removeThoughts (fuel : ℕ) (s : List Char) : List Char :=
  match fuel with
  | 0 => s
  | fuel + 1 =>
    match splitFirst "<thought>".data s with
    | none => s
    | some (pre, rest) =>
      match splitFirst "</thought>".data rest with
      | none => s
      | some (_, rest2) => pre ++ removeThoughts fuel rest2

/- ---------------------------------------------------------------------------
A concrete model of `json.loads`: recursive descent with explicit fuel.
--------------------------------------------------------------------------- -/

/-- JSON whitespace. -/
def skipWs (cs : List Char) : List Char :=
  cs.dropWhile (fun c => c = ' ' || c = '\t' || c = '\n' || c = '\r')

/-- Hexadecimal digit value (codepoint arithmetic: 48-57 are the digits,
97-102 and 65-70 the lower and upper letters). -/
def hexVal (c : Char) : Option ℕ :=
  let n := c.toNat
  if 48 ≤ n && n ≤ 57 then some (n - 48)
  else if 97 ≤ n && n ≤ 102 then some (n - 87)
  else if 65 ≤ n && n ≤ 70 then some (n - 55)
  else none

/-- The simple JSON escape characters and their values. -/
def escPairs : List (Char × Char) :=
  [('"', '"'), ('\\', '\\'), ('/', '/'), ('b', '\x08'), ('f', '\x0c'),
   ('n', '\n'), ('r', '\r'), ('t', '\t')]

/-- Body of a JSON string literal, after the opening quote.  Rejects raw
control characters (as `json.loads` does in strict mode); the simple escapes
go through the `escPairs` table and `\u` escapes through `hexVal`. -/
def parseStringBody : List Char → Option (List Char × List Char)
  | [] => none
  | c :: rest =>
    if c = '"' then some ([], rest)
    else if c = '\\' then
      match rest with
      | [] => none
      | e :: rest2 =>
        if e = 'u' then
          match rest2 with
          | h1 :: h2 :: h3 :: h4 :: rest3 =>
            (match hexVal h1, hexVal h2, hexVal h3, hexVal h4 with
             | some a, some b, some c2, some d =>
               let n := a * 4096 + b * 256 + c2 * 16 + d
               if h : n.isValidChar then
                 (parseStringBody rest3).map
                   (fun p => (Char.ofNatAux n h :: p.1, p.2))
               else none
             | _, _, _, _ => none)
          | _ => none
        else
          match escPairs.find? (fun pr => pr.1 = e) with
          | some pr =>
            (parseStringBody rest2).map (fun p => (pr.2 :: p.1, p.2))
          | none => none
    else if c.toNat < 32 then none
    else (parseStringBody rest).map (fun p => (c :: p.1, p.2))

/-- Digit run. -/
def spanDigits (cs : List Char) : List Char × List Char :=
  (cs.takeWhile Char.isDigit, cs.dropWhile Char.isDigit)

/-- Natural value of a digit run. -/
def digitsToNat (ds : List Char) : ℕ :=
  ds.foldl (fun acc c => 10 * acc + (c.toNat - 48)) 0

/-- JSON number literal.  Integer tokens become `Json.int`; tokens with a
fraction or exponent become `Json.float` with the exact decimal value
(the binary rounding of Python floats is not modelled). -/
def parseNumber (cs : List Char) : Option (Json × List Char) :=
  let (neg, cs1) := match cs with
    | '-' :: rest => (true, rest)
    | _ => (false, cs)
  let (intDigits, cs2) := spanDigits cs1
  if intDigits.isEmpty then none
  else if intDigits.length > 1 && intDigits.headD '0' = '0' then none
  else
    let intPart : ℤ := digitsToNat intDigits
    match cs2 with
    | '.' :: cs3 =>
      let (fracDigits, cs4) := spanDigits cs3
      if fracDigits.isEmpty then none
      else
        let base : ℚ := intPart + (digitsToNat fracDigits : ℚ) / (10 ^ fracDigits.length : ℕ)
        match cs4 with
        | 'e' :: cs5 => parseExp base neg cs5
        | 'E' :: cs5 => parseExp base neg cs5
        | _ => some (.float (if neg then -base else base), cs4)
    | 'e' :: cs3 => parseExp (intPart : ℚ) neg cs3
    | 'E' :: cs3 => parseExp (intPart : ℚ) neg cs3
    | _ => some (.int (if neg then -intPart else intPart), cs2)
where
  parseExp (base : ℚ) (neg : Bool) (cs : List Char) : Option (Json × List Char) :=
    let (eneg, cs1) := match cs with
      | '-' :: rest => (true, rest)
      | '+' :: rest => (false, rest)
      | _ => (false, cs)
    let (expDigits, cs2) := spanDigits cs1
    if expDigits.isEmpty then none
    else
      let e : ℤ := if eneg then -(digitsToNat expDigits : ℤ) else digitsToNat expDigits
      let v := base * (10 : ℚ) ^ e
      some (.float (if neg then -v else v), cs2)

/-- Parsing mode: a single value, the remaining elements of an array, or the
remaining members of an object (with the part already parsed). -/
inductive ParseMode where
  | value : ParseMode
  | elems (acc : List Json) : ParseMode
  | members (acc : List (String × Json)) : ParseMode

/-- Fuel-bounded recursive descent over one JSON value (`ParseMode.value`),
the tail of an array (`ParseMode.elems`), or the tail of an object
(`ParseMode.members`; duplicate keys follow the last-wins dict semantics of
`json.loads`). -/
def parseCore : ℕ → ParseMode → List Char → Option (Json × List Char)
  | 0, _, _ => none
  | fuel + 1, .value, cs =>
    let ws := skipWs cs
    if "null".data.isPrefixOf ws then some (.null, ws.drop 4)
    else if "true".data.isPrefixOf ws then some (.bool true, ws.drop 4)
    else if "false".data.isPrefixOf ws then some (.bool false, ws.drop 5)
    else
    (match ws with
     | '"' :: rest =>
       (parseStringBody rest).map (fun p => (.str (String.mk p.1), p.2))
     | '[' :: rest =>
       (match skipWs rest with
        | ']' :: rest2 => some (.arr [], rest2)
        | _ => parseCore fuel (.elems []) rest)
     | '\x7b' :: rest =>
       (match skipWs rest with
        | '\x7d' :: rest2 => some (.obj [], rest2)
        | _ => parseCore fuel (.members []) rest)
     | cs1 => parseNumber cs1)
  | fuel + 1, .elems acc, cs =>
    (match parseCore fuel .value cs with
     | none => none
     | some (v, rest) =>
       match skipWs rest with
       | ',' :: rest2 => parseCore fuel (.elems (v :: acc)) rest2
       | ']' :: rest2 => some (.arr (v :: acc).reverse, rest2)
       | _ => none)
  | fuel + 1, .members acc, cs =>
    (match skipWs cs with
     | '"' :: rest =>
       (match parseStringBody rest with
        | none => none
        | some (key, rest2) =>
          match skipWs rest2 with
          | ':' :: rest3 =>
            (match parseCore fuel .value rest3 with
             | none => none
             | some (v, rest4) =>
               let acc2 := dictSet acc (String.mk key) v
               match skipWs rest4 with
               | ',' :: rest5 => parseCore fuel (.members acc2) rest5
               | '\x7d' :: rest5 => some (.obj acc2, rest5)
               | _ => none)
          | _ => none)
     | _ => none)

/-- One JSON value. -/
def parseValue (fuel : ℕ) (cs : List Char) : Option (Json × List Char) :=
  parseCore fuel .value cs

/-- Model of `json.loads`: parse one value and require only whitespace after
it. -/
def jsonLoads (s : String) : Option Json :=
  match parseValue (2 * s.length + 16) s.data with
  | some (v, rest) => if (skipWs rest).isEmpty then some v else none
  | none => none

/- ---------------------------------------------------------------------------
Domain entities and value objects (src/domain).
--------------------------------------------------------------------------- -/

/-- Processing status of a section (src/domain/entities/section.py). -/
inductive SectionStatus where
  | pending | classified | processed | skipped | error
deriving DecidableEq, Repr

/-- A titled block of source text.  The `text` itself is consumed only by the
scoring engine (not embedded here); the dataclass materializes
`text_length = len(text)` at construction, stored directly in this model.
`document_id`, `coordinates` and the attached classification are omitted:
no embedded operation reads them. -/
structure Section where
  id : Int
  title : String
  page : Int
  text_length : ℕ
  status : SectionStatus
deriving DecidableEq, Repr

instance : Inhabited Section := ⟨⟨0, "", 0, 0, .pending⟩⟩

/-- `Section.mark_as_processed`. -/
def Section.mark_as_processed (s : Section) : Section :=
  { s with status := .processed }

/-- `Section.mark_as_error` (the error text is only logged, not stored). -/
def Section.mark_as_error (s : Section) : Section :=
  { s with status := .error }

/-- Python `int(x)`: truncation toward zero for floats, `True`/`False` as 1/0,
decimal string parsing (surrounding whitespace allowed), `TypeError`/
`ValueError` otherwise. -/
def pyInt : Json → Except String Int
  | .int n => .ok n
  | .bool b => .ok (if b then 1 else 0)
  | .float q => .ok (if 0 ≤ q then ⌊q⌋ else ⌈q⌉)
  | .str s =>
    let cs := (pyStrip s).data
    let (neg, cs1) := match cs with
      | '-' :: rest => (true, rest)
      | '+' :: rest => (false, rest)
      | _ => (false, cs)
    let (ds, rest) := spanDigits cs1
    if ds.isEmpty || !rest.isEmpty then .error "ValueError"
    else .ok (if neg then -(digitsToNat ds : Int) else (digitsToNat ds : Int))
  | _ => .error "TypeError"

/-- Python `float(x)` on JSON-like values (decimal strings only; `inf`/`nan`
strings are outside the model). -/
def pyFloat : Json → Except String ℚ
  | .int n => .ok n
  | .bool b => .ok (if b then 1 else 0)
  | .float q => .ok q
  | .str s =>
    (match parseNumber (pyStrip s).data with
     | some (.int n, []) => .ok (n : ℚ)
     | some (.float q, []) => .ok q
     | _ => .error "ValueError")
  | _ => .error "TypeError"

/-- PDF coordinates value object (src/domain/value_objects/coordinates.py);
`__post_init__` rejects negative values. -/
structure Coordinates where
  x : ℚ
  y : ℚ
  width : ℚ
  height : ℚ
deriving DecidableEq, Repr

/-- Dataclass construction including the `__post_init__` validation. -/
def Coordinates.mk? (x y width height : ℚ) : Except String Coordinates :=
  if x < 0 ∨ y < 0 then .error "ValueError: Coordenadas no pueden ser negativas"
  else if width < 0 ∨ height < 0 then .error "ValueError: Dimensiones no pueden ser negativas"
  else .ok ⟨x, y, width, height⟩

/-- `Coordinates.from_dict` (a non-dict argument fails at the first `.get`). -/
def Coordinates.from_dict (data : Json) : Except String Coordinates :=
  match data with
  | .obj d => do
    let x ← pyFloat (dictGetD d "x" (.int 0))
    let y ← pyFloat (dictGetD d "y" (.int 0))
    let width ← pyFloat (dictGetD d "width" (dictGetD d "ancho" (.int 0)))
    let height ← pyFloat (dictGetD d "height" (dictGetD d "alto" (.int 0)))
    Coordinates.mk? x y width height
  | _ => .error "AttributeError"

/-- Traceability record (src/domain/value_objects/origin.py).  `document_id`,
`title`, `author` and `source` are stored as the raw values the dict held
(CPython does not enforce the `str` hints); `section_id`, `page` and
`text_length` go through `int(...)` in `from_dict`. -/
structure Origin where
  document_id : Json
  section_id : Int
  title : Json
  page : Int
  coordinates : Coordinates
  text_length : Int
  author : Json
  source : Json

/-- `Origin.from_dict`.  The `isinstance(coords_data, Coordinates)` branch is
unreachable for JSON input and is not modelled. -/
def Origin.from_dict (data : List (String × Json)) : Except String Origin := do
  let coordinates ← Coordinates.from_dict (dictGetD data "coordenadas" (dictGetD data "coordinates" (.obj [])))
  let section_id ← pyInt (dictGetD data "section_id" (dictGetD data "id_seccion" (.int 0)))
  let page ← pyInt (dictGetD data "pagina" (dictGetD data "page" (.int 0)))
  let text_length ← pyInt (dictGetD data "longitud_texto" (dictGetD data "text_length" (.int 0)))
  .ok { document_id := dictGetD data "document_id" (.str "")
        section_id := section_id
        title := dictGetD data "titulo" (dictGetD data "title" (.str ""))
        page := page
        coordinates := coordinates
        text_length := text_length
        author := dictGetD data "autor" (dictGetD data "author" .null)
        source := dictGetD data "fuente" (dictGetD data "source" .null) }

/-- Python `iter(x)` as used by `for ... in x` / `tuple(x)`: lists yield their
elements, strings their characters, dicts their keys; other JSON-like values
raise `TypeError`. -/
def pyIter : Json → Except String (List Json)
  | .arr xs => .ok xs
  | .str s => .ok (s.data.map (fun c => .str (String.singleton c)))
  | .obj kvs => .ok (kvs.map (fun kv => .str kv.1))
  | _ => .error "TypeError"

/-- Difficulty levels (src/domain/value_objects/metadata.py). -/
inductive Difficulty where
  | BASIC | INTERMEDIATE | ADVANCED
deriving DecidableEq, Repr

/-- `Difficulty(value)` lookup by enum value. -/
def Difficulty.ofValue : String → Option Difficulty
  | "basico" => some .BASIC
  | "intermedio" => some .INTERMEDIATE
  | "avanzado" => some .ADVANCED
  | _ => none

/-- Question subtypes (src/domain/value_objects/metadata.py). -/
inductive QuestionSubtype where
  | DEFINITION | REQUIREMENT | EXCEPTION | EFFECT | COMPARISON | TIMELINE
  | SUBJECT | PROCEDURE | CLASSIFICATION | CHARACTERISTIC | EXAMPLE | LIST
  | CONCEPT | CASE | DEFINITION_EN | PROCEDURE_EN | COMPARISON_EN
deriving DecidableEq, Repr

/-- `QuestionSubtype(value)` lookup by enum value. -/
def QuestionSubtype.ofValue : String → Option QuestionSubtype
  | "definicion" => some .DEFINITION
  | "requisito" => some .REQUIREMENT
  | "excepcion" => some .EXCEPTION
  | "efecto" => some .EFFECT
  | "comparacion" => some .COMPARISON
  | "plazo" => some .TIMELINE
  | "sujeto" => some .SUBJECT
  | "procedimiento" => some .PROCEDURE
  | "clasificacion" => some .CLASSIFICATION
  | "caracteristica" => some .CHARACTERISTIC
  | "ejemplo" => some .EXAMPLE
  | "lista" => some .LIST
  | "concept" => some .CONCEPT
  | "case" => some .CASE
  | "definition" => some .DEFINITION_EN
  | "procedure" => some .PROCEDURE_EN
  | "comparison" => some .COMPARISON_EN
  | _ => none

/-- `QuestionMetadata.SUBTYPE_NORMALIZATION_MAP` (English → Spanish). -/
def SUBTYPE_NORMALIZATION_MAP : List (String × String) :=
  [("definition", "definicion"), ("requirement", "requisito"),
   ("exception", "excepcion"), ("effect", "efecto"),
   ("comparison", "comparacion"), ("timeline", "plazo"),
   ("subject", "sujeto"), ("procedure", "procedimiento"),
   ("classification", "clasificacion"), ("characteristic", "caracteristica"),
   ("example", "ejemplo"), ("list", "lista"),
   ("concept", "concept"), ("case", "case")]

/-- `QuestionMetadata._normalize_subtype`. -/
def normalize_subtype (s : String) : String :=
  let v := pyStrip (pyLower s)
  (((SUBTYPE_NORMALIZATION_MAP.find? (fun kv => kv.1 == v)).map (·.2)).getD v)

/-- The `difficulty` slot after `QuestionMetadata.create`: either a proper enum
member, or the raw value passed through (CPython leaves non-str, non-int
difficulties untouched and the frozen dataclass accepts them). -/
inductive DifficultyField where
  | enum (d : Difficulty)
  | raw (j : Json)

/-- The `subtype` slot after `QuestionMetadata.create` (same passthrough). -/
inductive SubtypeField where
  | enum (s : QuestionSubtype)
  | raw (j : Json)

/-- SM-2 metadata value object (src/domain/value_objects/metadata.py). -/
structure QuestionMetadata where
  difficulty : DifficultyField
  tags : List String
  subtype : SubtypeField
  topic : Json
  related_concepts : List Json

/-- The difficulty conversion step of `QuestionMetadata.create`: string enum
value, or numeric code 0-3 (bools count as ints in Python), other values
passed through raw. -/
def difficultyOfJson : Json → Except String DifficultyField
  | .str s =>
    (match Difficulty.ofValue (pyLower s) with
     | some d => .ok (.enum d)
     | none => .error "ValueError")
  | .int n => .ok (.enum (if n == 0 || n == 1 then .BASIC
      else if n == 2 then .INTERMEDIATE
      else if n == 3 then .ADVANCED else .INTERMEDIATE))
  | .bool _ => .ok (.enum .BASIC)
  | other => .ok (.raw other)

/-- The subtype conversion step of `QuestionMetadata.create`: normalize
(lowercase, strip, English→Spanish map), look up the enum, retry with the raw
lowercased value, raise otherwise; non-strings passed through raw. -/
def subtypeOfJson : Json → Except String SubtypeField
  | .str s =>
    (match QuestionSubtype.ofValue (normalize_subtype s) with
     | some q => .ok (.enum q)
     | none =>
       match QuestionSubtype.ofValue (pyLower s) with
       | some q => .ok (.enum q)
       | none => .error "ValueError")
  | other => .ok (.raw other)

/-- `QuestionMetadata.create`: lenient conversion of difficulty and subtype,
tag normalization (lowercase, spaces→underscores, empty dropped; non-string
tags raise), and `related_concepts` (tuple of any truthy iterable). -/
def QuestionMetadata.create (difficulty tags subtype topic related : Json) :
    Except String QuestionMetadata := do
  let diff ← difficultyOfJson difficulty
  let sub ← subtypeOfJson subtype
  let tagItems ← pyIter tags
  let tagStrs ← tagItems.mapM (fun t =>
    match t with
    | .str s => Except.ok s
    | _ => Except.error "AttributeError")
  let normalized_tags :=
    (tagStrs.filter (fun t => pyStrip t ≠ "")).map
      (fun t => pyStrip (pyReplace (pyLower t) " " "_"))
  let related_concepts ←
    if related.falsy then .ok ([] : List Json) else pyIter related
  .ok { difficulty := diff, tags := normalized_tags, subtype := sub,
        topic := topic, related_concepts := related_concepts }

/-- `QuestionMetadata.from_dict` (a non-dict argument fails at `.get`). -/
def QuestionMetadata.from_dict (data : Json) : Except String QuestionMetadata :=
  match data with
  | .obj d =>
    QuestionMetadata.create
      (dictGetD d "dificultad" (dictGetD d "difficulty" (.str "basico")))
      (dictGetD d "tags" (.arr []))
      (dictGetD d "subtipo" (dictGetD d "subtype" (.str "definicion")))
      (dictGetD d "tema" (dictGetD d "topic" .null))
      (dictGetD d "conceptos_relacionados" (dictGetD d "related_concepts" .null))
  | _ => .error "AttributeError"

/- ---------------------------------------------------------------------------
Question entity (src/domain/entities/question.py).
--------------------------------------------------------------------------- -/

/-- Supported question types, with their enum values. -/
inductive QuestionType where
  | FLASHCARD | TRUE_FALSE | MULTIPLE_CHOICE | CLOZE
deriving DecidableEq, Repr

/-- `QuestionType.value` — note the Spanish enum values. -/
def QuestionType.value : QuestionType → String
  | .FLASHCARD => "flashcards"
  | .TRUE_FALSE => "verdadero_falso"
  | .MULTIPLE_CHOICE => "opcion_multiple"
  | .CLOZE => "completar_espacios"

/-- `QuestionStatus`. -/
inductive QuestionStatus where
  | generated | validated | invalid | exported
deriving DecidableEq, Repr

/-- Variant-specific content, one constructor per `*Content` dataclass, with
the fields at the types the dataclasses declare.  (CPython does not enforce
the declared types; the embedding does, at construction — see
`buildQuestion`.) -/
inductive QContent where
  | flashcard (anverso reverso : String)
  | trueFalse (pregunta : String) (respuesta_correcta : Bool) (explicacion : String)
  | multipleChoice (pregunta : String) (opciones : List String)
      (respuesta_correcta : Int) (explicacion : String)
  | cloze (texto_con_espacios : String) (respuestas_validas : List String)

/-- The Question entity.  `created_at` (wall clock) is omitted; `id`
(a random uuid4 prefix) is modelled as an arbitrary stored string. -/
structure Question where
  id : String
  type : QuestionType
  question_text : String
  content : QContent
  origin : Origin
  metadata : QuestionMetadata
  status : QuestionStatus
  validation_errors : List String

/-- `Question.create_flashcard` (uuid modelled as `""`). -/
def Question.create_flashcard (anverso reverso : String) (origin : Origin)
    (metadata : QuestionMetadata) : Question :=
  { id := "", type := .FLASHCARD, question_text := anverso,
    content := .flashcard anverso reverso, origin := origin,
    metadata := metadata, status := .generated, validation_errors := [] }

/-- `Question.create_true_false`. -/
def Question.create_true_false (pregunta : String) (respuesta_correcta : Bool)
    (explicacion : String) (origin : Origin) (metadata : QuestionMetadata) :
    Question :=
  { id := "", type := .TRUE_FALSE, question_text := pregunta,
    content := .trueFalse pregunta respuesta_correcta explicacion,
    origin := origin, metadata := metadata, status := .generated,
    validation_errors := [] }

/-- `Question.create_multiple_choice`. -/
def Question.create_multiple_choice (pregunta : String) (opciones : List String)
    (respuesta_correcta : Int) (origin : Origin) (metadata : QuestionMetadata)
    (explicacion : String) : Question :=
  { id := "", type := .MULTIPLE_CHOICE, question_text := pregunta,
    content := .multipleChoice pregunta opciones respuesta_correcta explicacion,
    origin := origin, metadata := metadata, status := .generated,
    validation_errors := [] }

/-- `Question.create_cloze`. -/
def Question.create_cloze (texto_con_espacios : String)
    (respuestas_validas : List String) (origin : Origin)
    (metadata : QuestionMetadata) : Question :=
  { id := "", type := .CLOZE, question_text := texto_con_espacios,
    content := .cloze texto_con_espacios respuestas_validas, origin := origin,
    metadata := metadata, status := .generated, validation_errors := [] }

/-- Python `str.rstrip()`. -/
def pyRstrip (s : String) : String :=
  String.mk ((s.data.reverse.dropWhile Char.isWhitespace).reverse)

/-- `s.rstrip().endswith("?")`. -/
def endsWithQuestionMark (s : String) : Bool :=
  (pyRstrip s).data.getLast? == some '?'

/-- `Question._validate_flashcard`: the errors it appends.  The
`isinstance(content, FlashcardContent)` guard corresponds to the constructor
match. -/
def Question.validate_flashcard_errors (q : Question) : List String :=
  match q.content with
  | .flashcard anverso reverso =>
    (if pyStrip anverso = "" then ["Frente de flashcard vacío"] else []) ++
    (if pyStrip reverso = "" then ["Reverso de flashcard vacío"] else []) ++
    (if !endsWithQuestionMark anverso then
       ["Frente de flashcard debe terminar con \x27?\x27"] else [])
  | _ => ["Contenido no es FlashcardContent"]

/-- `Question._validate_true_false`.  The `isinstance(respuesta_correcta,
bool)` check cannot fire on the typed embedding and is omitted. -/
def Question.validate_true_false_errors (q : Question) : List String :=
  match q.content with
  | .trueFalse pregunta _ _ =>
    (if pyStrip pregunta = "" then ["Afirmación vacía"] else [])
  | _ => ["Contenido no es TrueFalseContent"]

/-- `Question._validate_multiple_choice`. -/
def Question.validate_multiple_choice_errors (q : Question) : List String :=
  match q.content with
  | .multipleChoice pregunta opciones respuesta_correcta _ =>
    (if pyStrip pregunta = "" then ["Pregunta vacía"] else []) ++
    (if opciones.length ≠ 4 then ["Debe tener exactamente 4 opciones"] else []) ++
    (if ¬(0 ≤ respuesta_correcta ∧ respuesta_correcta ≤ 3) then
       ["Índice de respuesta correcta inválido"] else []) ++
    (if opciones.dedup.length ≠ opciones.length then ["Opciones duplicadas"] else [])
  | _ => ["Contenido no es MultipleChoiceContent"]

/-- `Question._validate_cloze`. -/
def Question.validate_cloze_errors (q : Question) : List String :=
  match q.content with
  | .cloze texto respuestas =>
    (if !(containsSub texto "\x7b\x7b") || !(containsSub texto "\x7d\x7d") then
       ["Texto debe contener espacios \x7b\x7bblank\x7d\x7d"] else []) ++
    (if respuestas.isEmpty then ["Debe tener al menos una respuesta válida"] else [])
  | _ => ["Contenido no es ClozeContent"]

/-- `Question.validate`: clears prior errors, runs the common checks (empty
text; the `if not self.origin` check is always false for a constructed
`Origin` object) and the per-type checks, then re-derives the status.
Returns the updated entity and the boolean result. -/
def Question.validate (q : Question) : Question × Bool :=
  let common := if pyStrip q.question_text = "" then ["Pregunta vacía"] else []
  let typed :=
    match q.type with
    | .FLASHCARD => q.validate_flashcard_errors
    | .TRUE_FALSE => q.validate_true_false_errors
    | .MULTIPLE_CHOICE => q.validate_multiple_choice_errors
    | .CLOZE => q.validate_cloze_errors
  let errs := common ++ typed
  if errs ≠ [] then
    ({ q with status := .invalid, validation_errors := errs }, false)
  else
    ({ q with status := .validated, validation_errors := [] }, true)

/-- `Question.mark_validated`. -/
def Question.mark_validated (q : Question) : Question :=
  { q with status := .validated, validation_errors := [] }

/-- `Question.mark_invalid`. -/
def Question.mark_invalid (q : Question) (errors : List String) : Question :=
  { q with status := .invalid, validation_errors := errors }

/- ---------------------------------------------------------------------------
Batch entity (src/domain/entities/batch.py).
--------------------------------------------------------------------------- -/

/-- `BatchStatus`. -/
inductive BatchStatus where
  | pending | processing | completed | failed | partialStatus
deriving DecidableEq, Repr

/-- `BatchResult` (timestamps omitted; cost over `ℚ`). -/
structure BatchResult where
  questions_generated : ℕ
  questions_valid : ℕ
  questions_invalid : ℕ
  errors : List String
  warnings : List String
  tokens_used : ℕ
  cost_usd : ℚ
  processing_time_seconds : ℚ

/-- The `Batch` entity (`created_at`/`processed_at` wall-clock fields
omitted). -/
structure Batch where
  id : Int
  sections : List Section
  status : BatchStatus
  questions : List Question
  result : Option BatchResult
  error_message : Option String

/-- `Batch.create`. -/
def Batch.create (batch_id : Int) (sections : List Section) : Batch :=
  { id := batch_id, sections := sections, status := .pending, questions := [],
    result := none, error_message := none }

/-- `Batch.start_processing`. -/
def Batch.start_processing (b : Batch) : Batch :=
  { b with status := .processing }

/-- `Batch.complete`: stores the questions and aggregate result, derives the
final status (`FAILED` when errors were reported and no questions were
produced; `PARTIAL` when both valid and invalid questions exist; `COMPLETED`
otherwise), and marks every member section processed. -/
def Batch.complete (b : Batch) (questions : List Question) (tokens_used : ℕ)
    (cost_usd : ℚ) (processing_time : ℚ) (errors : Option (List String))
    (warnings : Option (List String)) : Batch :=
  let valid_questions := questions.filter (fun q => q.status = .validated)
  let invalid_questions := questions.filter (fun q => q.status = .invalid)
  let errs := errors.getD []
  let status :=
    if (match errors with
        | some es => !es.isEmpty
        | none => false) && errs.length > 0 && questions.length == 0 then
      BatchStatus.failed
    else if invalid_questions.length > 0 && valid_questions.length > 0 then
      BatchStatus.partialStatus
    else BatchStatus.completed
  { b with
    questions := questions
    status := status
    result := some
      { questions_generated := questions.length
        questions_valid := valid_questions.length
        questions_invalid := invalid_questions.length
        errors := errs
        warnings := warnings.getD []
        tokens_used := tokens_used
        cost_usd := cost_usd
        processing_time_seconds := processing_time }
    sections := b.sections.map Section.mark_as_processed }

/-- `Batch.fail`: records the error, sets status `FAILED`, and marks every
member section with status `error`. -/
def Batch.fail (b : Batch) (error_message : String) : Batch :=
  { b with
    status := .failed
    error_message := some error_message
    sections := b.sections.map Section.mark_as_error }

/- ---------------------------------------------------------------------------
The response reconciler
(src/application/use_cases/generate_questions.py, `_parse_response`).
--------------------------------------------------------------------------- -/

/-- `content.split(sep1)[1].split("```")[0]`: the text after the first
occurrence of `sep1`, cut at the next occurrence of three backticks (or
running to the end).  Cutting the Python `split(sep1)[1]` chunk at the next
triple backtick is equivalent, since a later `sep1` occurrence starts with
three backticks. -/
def fenceInterior (content sep1 : String) : String :=
  match splitFirst sep1.data content.data with
  | none => ""
  | some (_, rest) =>
    match splitFirst "```".data rest with
    | none => String.mk rest
    | some (pre, _) => String.mk pre

/-- The JSON-extraction cascade of `_parse_response` on string content:
strip `<thought>` blocks, try a direct parse, else take the interior of a
```json fence (or, failing its presence, of any fence) and parse it, and only
when no (non-empty) fence interior was found fall back to the greedy
`\x7b.*\x7d|\[.*\]` span.  A present fence whose interior does not parse ends
the cascade with `none`. -/
def extractJson (content0 : String) : Option Json :=
  let content : String :=
    if containsSub content0 "<thought>" then
      String.mk (removeThoughts (content0.length + 1) content0.data)
    else content0
  match jsonLoads (pyStrip content) with
  | some v => some v
  | none =>
    let json_str : String :=
      if containsSub content "```json" then fenceInterior content "```json"
      else if containsSub content "```" then fenceInterior content "```"
      else ""
    if json_str ≠ "" then jsonLoads (pyStrip json_str)
    else
      match graspSpan content.data with
      | some span => jsonLoads (String.mk span)
      | none => none

/-- The batch-relative → absolute section-id remapping of `_parse_response`:
an `int` (or `bool`, Python's int subtype) `section_id` in `1..len(sections)`
is replaced by the id of the corresponding batch section (also backfilling a
falsy `page`), an out-of-range one by the first section's id; a missing or
falsy `section_id` also defaults to the first section's id. -/
def remapOrigenData (d : List (String × Json)) (sections : List Section) :
    List (String × Json) :=
  let raw := dictGet d "section_id"
  let isInt : Bool := match raw with
    | some (.int _) => true
    | some (.bool _) => true
    | _ => false
  if isInt && !sections.isEmpty then
    let r : Int := match raw with
      | some (.int n) => n
      | some (.bool b) => if b then 1 else 0
      | _ => 0
    let idx := r - 1
    if 0 ≤ idx ∧ idx < sections.length then
      let real_section := sections.getD idx.toNat default
      let d1 := dictSet d "section_id" (.int real_section.id)
      if (dictGetD d1 "page" .null).falsy && real_section.page ≠ 0 then
        dictSet d1 "page" (.int real_section.page)
      else d1
    else dictSet d "section_id" (.int (sections.headD default).id)
  else if !sections.isEmpty &&
      (!dictHas d "section_id" || (dictGetD d "section_id" .null).falsy) then
    dictSet d "section_id" (.int (sections.headD default).id)
  else d

/-- The origin-resolution step of `_parse_response` for one raw item: remap
the reported section id against the batch, then
`Origin.from_dict(\x7b"document_id": document_id, **origen_data\x7d)`. -/
def resolveOrigin (origenData : List (String × Json)) (sections : List Section)
    (document_id : String) : Except String Origin :=
  Origin.from_dict
    (dictMerge [("document_id", .str document_id)]
      (remapOrigenData origenData sections))

/-- `x` if it is a string, `TypeError` otherwise: the embedding enforces the
`str` dataclass hints that CPython leaves unchecked (see `buildQuestion`). -/
def asStr : Json → Except String String
  | .str s => .ok s
  | _ => .error "TypeError"

/-- A `bool` hint (`respuesta_correcta` of true/false questions). -/
def asBool : Json → Except String Bool
  | .bool b => .ok b
  | _ => .error "TypeError"

/-- An `int` hint; Python bools are ints. -/
def asIntHint : Json → Except String Int
  | .int n => .ok n
  | .bool b => .ok (if b then 1 else 0)
  | _ => .error "TypeError"

/-- A `List[str]` hint. -/
def asStrList : Json → Except String (List String)
  | .arr xs => xs.mapM asStr
  | _ => .error "TypeError"

/-- Construction of one typed question from one raw item of the parsed
response, mirroring the per-item body of `_parse_response`: resolve the
origin (with section-id remapping), the metadata (`sm2_metadata` falling back
to `metadata`), and the content fields through their historical alias chains
(`contenido_tipo` → `content` → the item itself).  Any failure is the
per-item exception the source catches to skip the item.  One deliberate
difference: the source passes extracted field values into the content
dataclasses unchecked, so an ill-typed value (say an `int` front text) would
construct and only break later inside `Question.validate`; the embedding
rejects such values here instead (`asStr` &c.). -/
def buildQuestion (question_type : QuestionType) (sections : List Section)
    (document_id : String) (preg : Json) : Except String Question := do
  match preg with
  | .obj kvs => do
    let origenData ←
      (match dictGetD kvs "origen" (dictGetD kvs "origin" (.obj [])) with
       | .obj od => Except.ok od
       | _ => Except.error "AttributeError")
    let origin ← resolveOrigin origenData sections document_id
    let metadata ← QuestionMetadata.from_dict
      (dictGetD kvs "sm2_metadata" (dictGetD kvs "metadata" (.obj [])))
    let contenido ←
      (match dictGetD kvs "contenido_tipo" (dictGetD kvs "content" (.obj kvs)) with
       | .obj cd => Except.ok cd
       | _ => Except.error "AttributeError")
    match question_type with
    | .FLASHCARD => do
      let anverso ← asStr (dictGetD contenido "anverso" (dictGetD contenido "frente"
        (dictGetD contenido "front" (dictGetD kvs "pregunta" (.str "")))))
      let reverso ← asStr (dictGetD contenido "reverso" (dictGetD contenido "back"
        (dictGetD kvs "respuesta" (.str ""))))
      .ok (Question.create_flashcard anverso reverso origin metadata)
    | .TRUE_FALSE => do
      let pregunta ← asStr (dictGetD contenido "pregunta" (dictGetD contenido "afirmacion"
        (dictGetD contenido "question" (dictGetD contenido "statement" (.str "")))))
      let respuesta_correcta ← asBool (dictGetD contenido "respuesta_correcta"
        (dictGetD contenido "respuesta" (dictGetD contenido "correct_answer" (.bool true))))
      let explicacion ← asStr (dictGetD contenido "explicacion" (dictGetD contenido "justificacion"
        (dictGetD contenido "explanation" (.str ""))))
      .ok (Question.create_true_false pregunta respuesta_correcta explicacion origin metadata)
    | .MULTIPLE_CHOICE => do
      let pregunta ← asStr (dictGetD contenido "pregunta" (dictGetD contenido "question"
        (dictGetD kvs "pregunta" (.str ""))))
      let opciones ← asStrList (dictGetD contenido "opciones"
        (dictGetD contenido "options" (.arr [])))
      let respuesta_correcta ← asIntHint (dictGetD contenido "respuesta_correcta"
        (dictGetD contenido "correct_answer" (.int 0)))
      let explicacion ← asStr (dictGetD contenido "explicacion"
        (dictGetD contenido "explanation" (.str "")))
      .ok (Question.create_multiple_choice pregunta opciones respuesta_correcta
        origin metadata explicacion)
    | .CLOZE => do
      let texto ← asStr (dictGetD contenido "texto_con_espacios"
        (dictGetD contenido "text" (.str "")))
      let respuestas ← asStrList (dictGetD contenido "respuestas_validas"
        (dictGetD contenido "answers" (.arr [])))
      .ok (Question.create_cloze texto respuestas origin metadata)
  | _ => .error "AttributeError"

/-- The questions-list extraction of `_parse_response` after a successful JSON
parse: a dict is searched under `preguntas` then `questions`, falling back to
its first list-valued entry; a list is used directly; anything else yields no
questions.  A falsy result returns no questions; a truthy non-iterable one
(e.g. a number) reaches `enumerate(...)` and raises `TypeError` — an
exception no handler inside `_parse_response` catches. -/
def extractPreguntasRaw (content : Json) : Except String (List Json) :=
  match content with
  | .obj kvs =>
    let first := dictGetD kvs "preguntas" (dictGetD kvs "questions" (.arr []))
    let preguntas_raw :=
      if first.falsy && kvs.any (fun kv => kv.2.isArr) then
        ((kvs.find? (fun kv => kv.2.isArr)).map (·.2)).getD first
      else first
    if preguntas_raw.falsy then .ok [] else pyIter preguntas_raw
  | .arr xs => if (Json.arr xs).falsy then .ok [] else .ok xs
  | _ => .ok []

/-- `GenerateQuestionsUseCase._parse_response` on string content: extract a
JSON payload (returning no questions when every extraction stage fails),
locate the raw question list, and construct the typed questions one by one,
skipping any item whose construction raises.  The result is `Except`-valued
because one uncaught exception escapes this method: iterating a truthy
non-iterable `preguntas` value (see `extractPreguntasRaw`). -/
def parse_response (content : String) (question_type : QuestionType)
    (sections : List Section) (document_id : String) :
    Except String (List Question) := do
  match extractJson content with
  | none => .ok []
  | some parsed => do
    let preguntas_raw ← extractPreguntasRaw parsed
    .ok (preguntas_raw.filterMap
      (fun preg => (buildQuestion question_type sections document_id preg).toOption))

/- ---------------------------------------------------------------------------
Semantic classification (src/domain/value_objects/classification.py and
src/infrastructure/classification/service.py).
--------------------------------------------------------------------------- -/

/-- Python `round(x, 4)` over exact rationals: nearest multiple of 1/10000
(Python rounds ties to even on binary floats; ties cannot arise in the
properties proved here). -/
def round4 (q : ℚ) : ℚ :=
  ((round (q * 10000) : ℤ) : ℚ) / 10000

/-- `Classification` labels. -/
inductive Classification where
  | RELEVANT | DISCARDABLE | REVIEW_NEEDED | AUTO_CONSERVED
deriving DecidableEq, Repr

/-- `ClassificationMetrics` value object: the four sub-scores.  The
`__post_init__` range check (each in [0,100]) appears as hypotheses of the
theorems. -/
structure ClassificationMetrics where
  semantic_autonomy : ℚ
  legal_relevance : ℚ
  concept_density : ℚ
  context_coherence : ℚ
deriving DecidableEq, Repr

/-- `ClassificationMetrics.calculate_score`: normalize each metric by 100,
take the weighted sum, round to 4 decimals. -/
def ClassificationMetrics.calculate_score (m : ClassificationMetrics)
    (weight_as : ℚ := 30/100) (weight_rj : ℚ := 40/100)
    (weight_dc : ℚ := 20/100) (weight_cc : ℚ := 10/100) : ℚ :=
  round4 (m.semantic_autonomy / 100 * weight_as
    + m.legal_relevance / 100 * weight_rj
    + m.concept_density / 100 * weight_dc
    + m.context_coherence / 100 * weight_cc)

/-- The `final_score` that `SemanticClassificationService.classify` computes
from the metrics and attaches to the `ClassificationResult` it returns: the
plain weighted sum of the stored metric values — no division by 100 and no
rounding (the service's own metric functions produce values in [0,1]).
Default weights are the service's `_weight_as/_rj/_dc/_cc`. -/
def classifyFinalScore (m : ClassificationMetrics)
    (weight_as : ℚ := 30/100) (weight_rj : ℚ := 40/100)
    (weight_dc : ℚ := 20/100) (weight_cc : ℚ := 10/100) : ℚ :=
  m.semantic_autonomy * weight_as + m.legal_relevance * weight_rj
    + m.concept_density * weight_dc + m.context_coherence * weight_cc

/-- `SemanticClassificationService._determine_classification`, as a function
of the section's text length and the scores it receives; the thresholds
default to the service constructor's defaults (`threshold_relevant=0.7`,
`threshold_review=0.5`, `auto_conserve_length=300`).  The nested structure
mirrors the early-return chain of the source. -/
def determine_classification (text_length : ℕ) (final_score as_score rj_score : ℚ)
    (threshold_relevant : ℚ := 70/100) (threshold_review : ℚ := 50/100)
    (auto_conserve_length : ℕ := 300) : Classification :=
  if text_length ≥ auto_conserve_length ∧ as_score ≥ 50/100 then
    .AUTO_CONSERVED
  else if final_score ≥ threshold_relevant ∧ rj_score ≥ 60/100 then
    .RELEVANT
  else if final_score ≥ threshold_review then
    .REVIEW_NEEDED
  else if text_length < 100 ∨ final_score < 30/100 then
    .DISCARDABLE
  else
    .AUTO_CONSERVED

/- ---------------------------------------------------------------------------
Adaptive batch sizing
(src/application/use_cases/generate_questions.py, `_calculate_optimal_batch_size`).
--------------------------------------------------------------------------- -/

/-- Ascending insertion into a sorted list. -/
def insertAsc (n : ℕ) : List ℕ → List ℕ
  | [] => [n]
  | m :: rest => if n ≤ m then n :: m :: rest else m :: insertAsc n rest

/-- Python `sorted` (ascending) on naturals. -/
def sortAsc (l : List ℕ) : List ℕ :=
  l.foldr insertAsc []

/-- `GenerateQuestionsUseCase._calculate_optimal_batch_size`: sort the section
text lengths ascending, take the value at index `int(len * 0.90)` (the float
product truncates to `9 * len / 10` for every list length in reach), guarded
by the source's clamp to the last element, and map it through the step
function.  (On an empty list the source raises `IndexError`; the embedding
returns the `getLastD` default — every claim about this function assumes a
non-empty list.) -/
def calculate_optimal_batch_size (sections : List Section) : ℕ :=
  let lengths := sortAsc (sections.map Section.text_length)
  let p90_index := lengths.length * 9 / 10
  let p90 := if p90_index < lengths.length then lengths.getD p90_index 0
    else lengths.getLastD 0
  if p90 > 5000 then 2
  else if p90 > 3000 then 3
  else if p90 > 1500 then 5
  else 10

/- ---------------------------------------------------------------------------
Batch validation use case (src/application/use_cases/validate_questions.py).
--------------------------------------------------------------------------- -/

/-- One validation finding. -/
structure ValidationIssue where
  question_id : String
  field : String
  issue_type : String
  message : String
  severity : String
  auto_fixable : Bool
deriving DecidableEq, Repr

/-- A row of `VALIDATION_RULES`. -/
structure ValidationRules where
  min_question_length : ℕ
  min_answer_length : ℕ
  require_justification : Bool
  check_duplicates : Bool
  check_completeness : Bool
deriving DecidableEq, Repr

/-- `VALIDATION_RULES["strict"]`. -/
def strictRules : ValidationRules := ⟨20, 10, true, true, true⟩

/-- `VALIDATION_RULES["moderate"]`. -/
def moderateRules : ValidationRules := ⟨15, 5, false, true, true⟩

/-- `VALIDATION_RULES["lenient"]`. -/
def lenientRules : ValidationRules := ⟨10, 3, false, false, false⟩

/-- Upper-case hexadecimal digits of `n`, at least `w` wide. -/
def toHexPad (n : ℕ) (w : ℕ) : String :=
  let rec go (fuel n : ℕ) (acc : List Char) : List Char :=
    match fuel with
    | 0 => acc
    | fuel + 1 =>
      if n = 0 then acc
      else go fuel (n / 16) ("0123456789ABCDEF".data.getD (n % 16) '0' :: acc)
  let ds := go 8 n []
  let ds := List.replicate (w - ds.length) '0' ++ ds
  String.mk ds

/-- `ValidateQuestionsUseCase._check_problematic_chars`: control characters
other than tab/newline/CR, plus the replacement character; at most five
reported, comma-joined. -/
def check_problematic_chars (text : String) : String :=
  let control := (text.data.filter
    (fun c => c.toNat < 32 && c ≠ '\n' && c ≠ '\r' && c ≠ '\t')).map
    (fun c => "U+" ++ toHexPad c.toNat 4)
  let problematic := control ++ (if text.data.contains '�' then ["U+FFFD"] else [])
  String.intercalate ", " (problematic.take 5)

/-- `ValidateQuestionsUseCase._validate_by_type`.  The source compares
`question.type.value` against the English names `"flashcard"`,
`"true_false"`, `"multiple_choice"` and `"cloze"`, but `QuestionType.value`
only ever takes the Spanish values (`"flashcards"`, `"verdadero_falso"`,
`"opcion_multiple"`, `"completar_espacios"`), so no branch can fire.  The
(unreachable) branch bodies are translated against the entity's content
fields; in the source they read attributes (`content.front`,
`content.options`, `content.correct_index`, ...) that the `*Content`
dataclasses do not even define, so reaching them would raise
`AttributeError`. -/
def validate_by_type (question : Question) (rules : ValidationRules) :
    List ValidationIssue :=
  let content := question.content
  if question.type.value == "flashcard" then
    (match content with
     | .flashcard front back =>
       (if pyStrip front = "" then
          [⟨question.id, "content.front", "empty_front",
            "Frente de flashcard vacío", "error", false⟩] else []) ++
       (if pyStrip back = "" then
          [⟨question.id, "content.back", "empty_back",
            "Reverso de flashcard vacío", "error", false⟩] else [])
     | _ => [])
  else if question.type.value == "true_false" then
    (match content with
     | .trueFalse _ _ justification =>
       (if rules.require_justification && justification == "" then
          [⟨question.id, "content.justification", "missing_justification",
            "Falta justificación", "warning", false⟩] else [])
     | _ => [])
  else if question.type.value == "multiple_choice" then
    (match content with
     | .multipleChoice _ options correct_index _ =>
       (if options.length < 3 then
          [⟨question.id, "content.options", "insufficient_options",
            "Muy pocas opciones (" ++ toString options.length ++ ")",
            "error", false⟩] else []) ++
       (if correct_index ≥ (options.length : Int) then
          [⟨question.id, "content.correct_index", "invalid_correct_index",
            "Índice de respuesta correcta inválido", "error", false⟩] else []) ++
       (if options.length ≠ options.dedup.length then
          [⟨question.id, "content.options", "duplicate_options",
            "Opciones duplicadas", "error", false⟩] else [])
     | _ => [])
  else if question.type.value == "cloze" then
    (match content with
     | .cloze text_with_blanks valid_answers =>
       (if !(containsSub text_with_blanks "\x7b\x7bc1::")
           && !(containsSub text_with_blanks "_____") then
          [⟨question.id, "content.text_with_blanks", "no_blanks",
            "No se encontraron espacios en blanco", "error", false⟩] else []) ++
       (if valid_answers.isEmpty then
          [⟨question.id, "content.valid_answers", "no_valid_answers",
            "No hay respuestas válidas definidas", "error", false⟩] else [])
     | _ => [])
  else []

/-- `ValidateQuestionsUseCase._validate_question`: question-length check, the
per-type checks, the origin warning (`not question.origin.section_id`, i.e. a
falsy section id), the empty-content check and the problematic-characters
check, in source order. -/
def validate_question (question : Question) (rules : ValidationRules) :
    List ValidationIssue :=
  (if question.question_text.length < rules.min_question_length then
     [⟨question.id, "question_text", "too_short",
       "Pregunta muy corta (" ++ toString question.question_text.length ++ " caracteres)",
       "error", false⟩] else []) ++
  validate_by_type question rules ++
  (if question.origin.section_id == 0 then
     [⟨question.id, "origin", "missing_origin",
       "Falta referencia a sección de origen", "warning", false⟩] else []) ++
  (if pyStrip question.question_text = "" then
     [⟨question.id, "question_text", "empty_content", "Pregunta vacía",
       "error", false⟩] else []) ++
  (let pc := check_problematic_chars question.question_text
   if pc ≠ "" then
     [⟨question.id, "question_text", "problematic_chars",
       "Caracteres problemáticos: " ++ pc, "warning", true⟩] else [])

/-- The per-question step of `ValidateQuestionsUseCase.execute` with
`auto_fix` disabled: a question with issues is marked invalid with the issue
messages, one without is marked validated. -/
def processQuestionUC (question : Question) (rules : ValidationRules) : Question :=
  let issues := validate_question question rules
  if issues ≠ [] then question.mark_invalid (issues.map (·.message))
  else question.mark_validated

/- ---------------------------------------------------------------------------
Claim-side definitions (written from the claims' wording, for comparison with
the source-side definitions above) and concrete fixtures.
--------------------------------------------------------------------------- -/

/-- The extraction chain exactly as claim C3 orders it: strip thought blocks,
direct parse, json-labelled fence interior, any fence interior, greedy
brace/bracket span — stopping at the first success and failing only when all
five fail. -/
def extractJsonClaimChain (content0 : String) : Option Json :=
  let content : String :=
    if containsSub content0 "<thought>" then
      String.mk (removeThoughts (content0.length + 1) content0.data)
    else content0
  (jsonLoads (pyStrip content)).orElse (fun _ =>
    ((if containsSub content "```json" then
        jsonLoads (pyStrip (fenceInterior content "```json")) else none).orElse (fun _ =>
      ((if containsSub content "```" then
          jsonLoads (pyStrip (fenceInterior content "```")) else none).orElse (fun _ =>
        (graspSpan content.data).bind (fun span => jsonLoads (String.mk span)))))))

/-- The extraction chain as amended for claim C3: after the thought-strip and
a failed direct parse, a present fenced block (the json-labelled one if any,
else the first unlabelled one) with a non-empty interior is final — its parse
failure is not recovered; the greedy span search runs only when no fence
(or only an empty fence interior) was found. -/
def extractJsonAmendedChain (content0 : String) : Option Json :=
  let content : String :=
    if containsSub content0 "<thought>" then
      String.mk (removeThoughts (content0.length + 1) content0.data)
    else content0
  match jsonLoads (pyStrip content) with
  | some v => some v
  | none =>
    match (if containsSub content "```json" then some (fenceInterior content "```json")
           else if containsSub content "```" then some (fenceInterior content "```")
           else none) with
    | some interior =>
      if interior ≠ "" then jsonLoads (pyStrip interior)
      else (graspSpan content.data).bind (fun span => jsonLoads (String.mk span))
    | none => (graspSpan content.data).bind (fun span => jsonLoads (String.mk span))

/-- A weighted-sum score over explicit (metric, weight) pairs; claim C9 reads
`calculate_score` as this form, which is invariant under permutations of the
pairs. -/
def weightedPairScore (l : List (ℚ × ℚ)) : ℚ :=
  round4 ((l.map (fun p => p.1 / 100 * p.2)).sum)

/-- A three-section batch with absolute ids 101/102/103 (the worked example
of the reconciler claims). -/
def batchSections : List Section :=
  [⟨101, "s1", 1, 100, .pending⟩, ⟨102, "s2", 2, 100, .pending⟩,
   ⟨103, "s3", 3, 100, .pending⟩]

/-- The origin produced for `\x7b"section_id": 2\x7d` against
`batchSections`: absolute id 102, with the page backfilled from the
section. -/
def resolvedOriginExample : Origin :=
  { document_id := .str "doc", section_id := 102, title := .str "", page := 2,
    coordinates := ⟨0, 0, 0, 0⟩, text_length := 0, author := .null,
    source := .null }

/-- A response whose fenced block holds no valid JSON while a parseable
`\x7b...\x7d` span follows it (claim C3). -/
def fencedThenSpan : String := "```\nnot json\n```\nsee \x7b\"a\": 1\x7d"

/-- Ten sections with text lengths `[100]*9 ++ [6000]` (claim C6's worked
example). -/
def p90Sections : List Section :=
  (List.replicate 9 (⟨0, "s", 1, 100, SectionStatus.pending⟩ : Section)) ++
    [⟨9, "big", 1, 6000, SectionStatus.pending⟩]

/-- A minimal valid metadata value. -/
def sampleMetadata : QuestionMetadata :=
  { difficulty := .enum .BASIC, tags := [], subtype := .enum .DEFINITION,
    topic := .null, related_concepts := [] }

/-- A multiple-choice question with five distinct options and an
out-of-range correct index — exactly what claim C7 says batch validation must
reject. -/
def badMultipleChoice : Question :=
  { id := "q1", type := .MULTIPLE_CHOICE,
    question_text := "¿Cuál de las siguientes opciones es correcta según el texto?",
    content := .multipleChoice
      "¿Cuál de las siguientes opciones es correcta según el texto?"
      ["a", "b", "c", "d", "e"] 10 "",
    origin := resolvedOriginExample, metadata := sampleMetadata,
    status := .generated, validation_errors := [] }

/-- A one-section pending batch (claim C8). -/
def pendingBatch : Batch :=
  Batch.create 0 [⟨1, "t", 1, 50, .pending⟩]

/-- A flashcard whose front text does not end with a question mark
(claim C10). -/
def statementFlashcard : Question :=
  Question.create_flashcard "El plazo es de 30 días" "30 días"
    resolvedOriginExample sampleMetadata

/- ---------------------------------------------------------------------------
Helper lemmas.
--------------------------------------------------------------------------- -/

lemma dictGet_dictSet_self (d : List (String × Json)) (k : String) (v : Json) :
    dictGet (dictSet d k v) k = some v := by
  induction d with
  | nil => simp [dictSet, dictGet, List.find?]
  | cons kv rest ih =>
    by_cases h : kv.1 = k
    · have hb : (kv.1 == k) = true := by simpa using h
      simp [dictSet, dictGet, List.find?, hb]
    · have hb : (kv.1 == k) = false := by simpa using h
      simpa [dictSet, dictGet, List.find?, hb] using ih

lemma dictGet_dictSet_ne (d : List (String × Json)) (k k' : String) (v : Json)
    (h : k' ≠ k) : dictGet (dictSet d k' v) k = dictGet d k := by
  have hkk : (k' == k) = false := by simpa using h
  induction d with
  | nil => simp [dictSet, dictGet, List.find?, hkk]
  | cons kv rest ih =>
    by_cases hk : kv.1 = k'
    · have hb : (kv.1 == k') = true := by simpa using hk
      have hb3 : (kv.1 == k) = false := by
        simpa using fun hh : kv.1 = k => h (hk ▸ hh)
      simp [dictSet, dictGet, List.find?, hb, hkk, hb3]
    · have hb : (kv.1 == k') = false := by simpa using hk
      by_cases hk2 : kv.1 = k
      · have hb2 : (kv.1 == k) = true := by simpa using hk2
        simp [dictSet, dictGet, List.find?, hb, hb2]
      · have hb2 : (kv.1 == k) = false := by simpa using hk2
        simpa [dictSet, dictGet, List.find?, hb, hb2] using ih

lemma dictGet_eq_none_of_not_mem_keys (d : List (String × Json)) (k : String)
    (h : k ∉ d.map Prod.fst) : dictGet d k = none := by
  induction d with
  | nil => simp [dictGet]
  | cons kv rest ih =>
    simp only [List.map_cons, List.mem_cons, not_or] at h
    have hb : (kv.1 == k) = false := by
      simpa using fun hh : kv.1 = k => h.1 hh.symm
    simpa [dictGet, List.find?, hb] using ih h.2

lemma dictGet_dictMerge_not_mem (base : List (String × Json))
    (extra : List (String × Json)) (k : String)
    (h : k ∉ extra.map Prod.fst) :
    dictGet (dictMerge base extra) k = dictGet base k := by
  induction extra generalizing base with
  | nil => simp [dictMerge]
  | cons kv rest ih =>
    simp only [List.map_cons, List.mem_cons, not_or] at h
    have step : dictMerge base (kv :: rest) = dictMerge (dictSet base kv.1 kv.2) rest := by
      simp [dictMerge]
    rw [step, ih _ h.2, dictGet_dictSet_ne _ _ _ _ (fun hh => h.1 hh.symm)]

lemma dictGet_dictMerge (base extra : List (String × Json)) (k : String)
    (hnd : (extra.map Prod.fst).Nodup) :
    dictGet (dictMerge base extra) k =
      ((dictGet extra k).rec (dictGet base k) (fun v => some v)) := by
  induction extra generalizing base with
  | nil => simp [dictMerge, dictGet, List.find?]
  | cons kv rest ih =>
    simp only [List.map_cons, List.nodup_cons] at hnd
    have step : dictMerge base (kv :: rest) = dictMerge (dictSet base kv.1 kv.2) rest := by
      simp [dictMerge]
    by_cases hk : kv.1 = k
    · have hb : (kv.1 == k) = true := by simpa using hk
      subst hk
      rw [step, dictGet_dictMerge_not_mem _ _ _ hnd.1, dictGet_dictSet_self]
      simp [dictGet, List.find?, hb]
    · have hb : (kv.1 == k) = false := by simpa using hk
      rw [step, ih _ hnd.2, dictGet_dictSet_ne _ _ _ _ hk]
      simp [dictGet, List.find?, hb]

lemma keys_dictSet (d : List (String × Json)) (k : String) (v : Json) :
    (dictSet d k v).map Prod.fst = d.map Prod.fst ∨
      (dictSet d k v).map Prod.fst = d.map Prod.fst ++ [k] := by
  induction d with
  | nil => right; simp [dictSet]
  | cons kv rest ih =>
    by_cases h : kv.1 = k
    · left; simp [dictSet, h]
    · have hb : (kv.1 == k) = false := by simpa using h
      rcases ih with ih | ih
      · left; simp [dictSet, hb, ih]
      · right; simp [dictSet, hb, ih]

lemma nodup_keys_dictSet (d : List (String × Json)) (k : String) (v : Json)
    (h : (d.map Prod.fst).Nodup) : ((dictSet d k v).map Prod.fst).Nodup := by
  induction d with
  | nil => simp [dictSet]
  | cons kv rest ih =>
    simp only [List.map_cons, List.nodup_cons] at h
    by_cases hk : kv.1 = k
    · have hb : (kv.1 == k) = true := by simpa using hk
      subst hk
      simp [dictSet, hb, h.1, h.2]
    · have hb : (kv.1 == k) = false := by simpa using hk
      have hmem : kv.1 ∉ (dictSet rest k v).map Prod.fst := by
        rcases keys_dictSet rest k v with hkeys | hkeys
        · rw [hkeys]; exact h.1
        · rw [hkeys]
          simp only [List.mem_append, List.mem_singleton, not_or]
          exact ⟨h.1, hk⟩
      simp only [dictSet, hb, Bool.false_eq_true, if_false, List.map_cons,
        List.nodup_cons]
      exact ⟨hmem, ih h.2⟩

lemma nodup_keys_remapOrigenData (d : List (String × Json))
    (sections : List Section) (h : (d.map Prod.fst).Nodup) :
    ((remapOrigenData d sections).map Prod.fst).Nodup := by
  simp only [remapOrigenData]
  split_ifs <;>
    first
      | exact h
      | exact nodup_keys_dictSet _ _ _ h
      | exact nodup_keys_dictSet _ _ _ (nodup_keys_dictSet _ _ _ h)

lemma except_bind_ok {ε α β : Type} {x : Except ε α} {f : α → Except ε β} {b : β}
    (h : (x >>= f) = .ok b) : ∃ a, x = .ok a ∧ f a = .ok b := by
  cases x with
  | error e => simp [Bind.bind, Except.bind] at h
  | ok a => exact ⟨a, rfl, by simpa [Bind.bind, Except.bind] using h⟩

lemma round4_mono {a b : ℚ} (h : a ≤ b) : round4 a ≤ round4 b := by
  unfold round4
  have h2 : round (a * 10000) ≤ round (b * 10000) := by
    rw [round_eq, round_eq]
    exact Int.floor_le_floor (by linarith)
  have h3 : ((round (a * 10000) : ℤ) : ℚ) ≤ ((round (b * 10000) : ℤ) : ℚ) :=
    Int.cast_le.mpr h2
  linarith

lemma round4_zero : round4 0 = 0 := by
  simp [round4]

lemma round4_one : round4 1 = 1 := by
  norm_num [round4, round_eq]

lemma length_insertAsc (n : ℕ) (l : List ℕ) :
    (insertAsc n l).length = l.length + 1 := by
  induction l with
  | nil => simp [insertAsc]
  | cons m rest ih =>
    by_cases h : n ≤ m <;> simp [insertAsc, h, ih]

lemma length_sortAsc (l : List ℕ) : (sortAsc l).length = l.length := by
  induction l with
  | nil => rfl
  | cons a rest ih =>
    simp [sortAsc, List.foldr_cons, length_insertAsc]
    simpa [sortAsc] using ih

/- ---------------------------------------------------------------------------
Claim theorems.
--------------------------------------------------------------------------- -/


/- ---------------------------------------------------------------------------
Claim theorems.
--------------------------------------------------------------------------- -/

/-- C1 (code_bug evidence): `_parse_response` indeed returns `[]` without
raising on `"not json at all"`, but on the well-formed JSON response
`\x7b"preguntas": 5\x7d` — a malformed payload whose `preguntas` entry is a
truthy non-iterable — the loop header `for i, preg in enumerate(preguntas_raw)`
raises an uncaught `TypeError`, so `parse_response` does not return a list for
every string input as the claim states. -/
theorem parse_response_uncaught_typeerror :
    parse_response "not json at all" .FLASHCARD batchSections "doc" = .ok [] ∧
    parse_response "\x7b\"preguntas\": 5\x7d" .FLASHCARD batchSections "doc" =
      .error "TypeError" :=
  ⟨by rfl, by rfl⟩

/-- C3 (counterexample): for a response holding a fenced block whose interior
is not valid JSON followed by a parseable `\x7b...\x7d` span, the source
extraction returns nothing (and `_parse_response` returns the empty list),
while the chain the claim describes — which still attempts the greedy span
search after the fence parse fails — succeeds.  This falsifies the claim
that the greedy regex search is still attempted before giving up when a
fenced block is present with invalid JSON inside. -/
theorem extraction_stops_at_failed_fence :
    extractJson fencedThenSpan = none ∧
    extractJsonClaimChain fencedThenSpan = some (.obj [("a", .int 1)]) ∧
    parse_response fencedThenSpan .FLASHCARD batchSections "doc" = .ok [] :=
  ⟨by rfl, by rfl, by rfl⟩

/-- C3 (amended): the extraction cascade strips thought blocks and tries a
direct parse; after that it selects one fence interior (the json-labelled
fence if present, else the first unlabelled fence) and, when that interior is
non-empty, its parse result is final — a failure is not recovered by the
greedy span search, which runs only when no fence (or an empty fence
interior) was found; the empty list is returned when extraction fails. -/
theorem extraction_chain_amended :
    ∀ s : String, extractJson s = extractJsonAmendedChain s := by
  intro s
  unfold extractJson extractJsonAmendedChain
  dsimp only
  generalize (if containsSub s "<thought>" = true then
    String.mk (removeThoughts (s.length + 1) s.data) else s) = c
  cases hjl : jsonLoads (pyStrip c) with
  | some v => simp [hjl]
  | none =>
    simp only [hjl]
    by_cases h1 : containsSub c "```json"
    · by_cases h2 : fenceInterior c "```json" = ""
      · simp only [h1, if_true, h2, ne_eq, not_true_eq_false, if_false]
        cases hg : graspSpan c.data <;> simp [hg]
      · simp [h1, h2]
    · by_cases h2 : containsSub c "```"
      · by_cases h3 : fenceInterior c "```" = ""
        · simp only [h1, Bool.false_eq_true, if_false, h2, if_true, h3, ne_eq,
            not_true_eq_false]
          cases hg : graspSpan c.data <;> simp [hg]
        · simp [h1, h2, h3]
      · simp only [h1, h2, Bool.false_eq_true, if_false, ne_eq,
          not_true_eq_false]
        cases hg : graspSpan c.data <;> simp [hg]

/-- C7 (code_bug evidence): `badMultipleChoice` has five distinct options and
correct index 10 (outside the list), yet the batch-validation use case
reports no issue for it and marks it validated — because
`_validate_by_type` compares `question.type.value` against
`"multiple_choice"` while the enum value is `"opcion_multiple"`, so the
multiple-choice branch never runs.  The entity-level check that branch
mirrors (`Question._validate_multiple_choice`) does flag the same item. -/
theorem batch_validation_misses_bad_multiple_choice :
    validate_by_type badMultipleChoice strictRules = [] ∧
    validate_question badMultipleChoice strictRules = [] ∧
    (processQuestionUC badMultipleChoice strictRules).status = .validated ∧
    Question.validate_multiple_choice_errors badMultipleChoice =
      ["Debe tener exactamente 4 opciones",
       "Índice de respuesta correcta inválido"] ∧
    (Question.validate badMultipleChoice).1.status = .invalid :=
  ⟨by rfl, by rfl, by rfl, by rfl, by rfl⟩

/-- C8 (counterexample): completing a batch with zero questions and a
non-empty error list makes the batch finish in status `FAILED`, yet every
member section is marked `processed`, not `error` — falsifying the claim
that a batch that fails leaves every member section in status `error`. -/
theorem failed_complete_marks_sections_processed :
    (Batch.complete pendingBatch [] 0 0 0 (some ["boom"]) none).status =
      .failed ∧
    ((Batch.complete pendingBatch [] 0 0 0 (some ["boom"]) none).sections.all
      (fun s => s.status == .error)) = false ∧
    ((Batch.complete pendingBatch [] 0 0 0 (some ["boom"]) none).sections.all
      (fun s => s.status == .processed)) = true :=
  ⟨by rfl, by rfl, by rfl⟩

/-- C8 (amended): `Batch.complete` marks every member section `processed`
regardless of the final batch status it computes (even when it determines
`FAILED` because errors were reported and no questions were produced), while
`Batch.fail` sets the batch status to `failed` and marks every member section
`error`; in both finishing paths no member section keeps its prior status. -/
theorem batch_finish_section_statuses :
    ∀ (b : Batch) (qs : List Question) (t : ℕ) (c pt : ℚ)
      (errs ws : Option (List String)) (msg : String),
      ((Batch.complete b qs t c pt errs ws).sections.all
        (fun s => s.status == .processed)) = true ∧
      ((Batch.fail b msg).sections.all (fun s => s.status == .error)) = true ∧
      (Batch.fail b msg).status = .failed := by
  intro b qs t c pt errs ws msg
  refine ⟨?_, ?_, rfl⟩
  · simp [Batch.complete, Section.mark_as_processed, List.all_eq_true]
  · simp [Batch.fail, Section.mark_as_error, List.all_eq_true]

/-- C4: the classifier's decision rules fire in strict priority order with the
default thresholds: length ≥ 300 with SA ≥ 0.5 is AUTO_CONSERVED regardless
of the composite score; otherwise composite ≥ 0.7 with LR ≥ 0.6 is RELEVANT;
otherwise composite ≥ 0.5 is REVIEW_NEEDED; otherwise a section shorter than
100 characters or with composite < 0.3 is DISCARDABLE; anything left is
AUTO_CONSERVED. -/
theorem classifier_priority_order :
    ∀ (text_length : ℕ) (final_score as_score rj_score : ℚ),
      (text_length ≥ 300 ∧ as_score ≥ 50/100 →
        determine_classification text_length final_score as_score rj_score =
          .AUTO_CONSERVED) ∧
      (¬(text_length ≥ 300 ∧ as_score ≥ 50/100) →
        final_score ≥ 70/100 ∧ rj_score ≥ 60/100 →
        determine_classification text_length final_score as_score rj_score =
          .RELEVANT) ∧
      (¬(text_length ≥ 300 ∧ as_score ≥ 50/100) →
        ¬(final_score ≥ 70/100 ∧ rj_score ≥ 60/100) →
        final_score ≥ 50/100 →
        determine_classification text_length final_score as_score rj_score =
          .REVIEW_NEEDED) ∧
      (¬(text_length ≥ 300 ∧ as_score ≥ 50/100) →
        ¬(final_score ≥ 70/100 ∧ rj_score ≥ 60/100) →
        ¬(final_score ≥ 50/100) →
        (text_length < 100 ∨ final_score < 30/100) →
        determine_classification text_length final_score as_score rj_score =
          .DISCARDABLE) ∧
      (¬(text_length ≥ 300 ∧ as_score ≥ 50/100) →
        ¬(final_score ≥ 70/100 ∧ rj_score ≥ 60/100) →
        ¬(final_score ≥ 50/100) →
        ¬(text_length < 100 ∨ final_score < 30/100) →
        determine_classification text_length final_score as_score rj_score =
          .AUTO_CONSERVED) := by
  intro tl fs as rj
  refine ⟨?_, ?_, ?_, ?_, ?_⟩ <;>
    · intros
      unfold determine_classification
      split_ifs <;> first | rfl | tauto

/-- C4 witness: a 350-character section with SA = 0.6 and a composite score
of 0.95 (with LR = 0.95, which alone would satisfy the RELEVANT rule) is
still AUTO_CONSERVED, by the first rule. -/
theorem classifier_priority_order_witness :
    ((350 ≥ 300 ∧ (60 : ℚ)/100 ≥ 50/100) ∧ (95 : ℚ)/100 ≥ 70/100) ∧
    determine_classification 350 (95/100) (60/100) (95/100) = .AUTO_CONSERVED := by
  refine ⟨⟨⟨by norm_num, by norm_num⟩, by norm_num⟩, ?_⟩
  exact (classifier_priority_order 350 (95/100) (60/100) (95/100)).1
    ⟨by norm_num, by norm_num⟩

/-- C5 (counterexample): for the metric set (0.5, 0.5, 0.5, 0.5) — the kind
the service's own metric functions produce, each sub-score in [0,1] — the
score `classify` attaches to the `ClassificationResult` (the plain weighted
sum, 0.5) differs from `ClassificationMetrics.calculate_score` (which
normalizes by 100 and rounds, giving 0.005); so the attached composite score
is not the rounded `SA/100·w + ...` value the claim describes. -/
theorem attached_score_is_not_calculate_score :
    classifyFinalScore ⟨1/2, 1/2, 1/2, 1/2⟩ ≠
      ClassificationMetrics.calculate_score ⟨1/2, 1/2, 1/2, 1/2⟩ := by
  norm_num [classifyFinalScore, ClassificationMetrics.calculate_score, round4,
    round_eq]

/-- C5 (amended): for every metric set with components in [0,100] and the
default weights 0.30/0.40/0.20/0.10, the value object's `calculate_score`
equals `SA/100·w_sa + LR/100·w_rj + CD/100·w_dc + CC/100·w_cc` rounded to 4
decimals and lies in [0,1]; the score the service attaches to the
classification result, however, is the unrounded plain weighted sum of the
stored metric values, with no division by 100 (the service stores sub-scores
in [0,1], so that attached score also lies in [0,1]). -/
theorem composite_score_range_and_formula :
    ∀ m : ClassificationMetrics,
      0 ≤ m.semantic_autonomy → m.semantic_autonomy ≤ 100 →
      0 ≤ m.legal_relevance → m.legal_relevance ≤ 100 →
      0 ≤ m.concept_density → m.concept_density ≤ 100 →
      0 ≤ m.context_coherence → m.context_coherence ≤ 100 →
      (0 ≤ m.calculate_score ∧ m.calculate_score ≤ 1) ∧
      m.calculate_score =
        round4 (m.semantic_autonomy / 100 * (30/100)
          + m.legal_relevance / 100 * (40/100)
          + m.concept_density / 100 * (20/100)
          + m.context_coherence / 100 * (10/100)) ∧
      classifyFinalScore m =
        m.semantic_autonomy * (30/100) + m.legal_relevance * (40/100)
          + m.concept_density * (20/100) + m.context_coherence * (10/100) := by
  intro m h1a h1b h2a h2b h3a h3b h4a h4b
  have harg0 : (0:ℚ) ≤ m.semantic_autonomy / 100 * (30/100)
      + m.legal_relevance / 100 * (40/100)
      + m.concept_density / 100 * (20/100)
      + m.context_coherence / 100 * (10/100) := by positivity
  have harg1 : m.semantic_autonomy / 100 * (30/100)
      + m.legal_relevance / 100 * (40/100)
      + m.concept_density / 100 * (20/100)
      + m.context_coherence / 100 * (10/100) ≤ 1 := by linarith
  refine ⟨⟨?_, ?_⟩, rfl, rfl⟩
  · have := round4_mono harg0
    rwa [round4_zero] at this
  · have := round4_mono harg1
    rwa [round4_one] at this

/-- C5 witness: the metric set (50, 50, 50, 50) satisfies the range
hypotheses; its `calculate_score` is 0.2 while the service would attach 50. -/
theorem composite_score_range_and_formula_witness :
    ((0:ℚ) ≤ 50 ∧ (50:ℚ) ≤ 100) ∧
    (0 ≤ ClassificationMetrics.calculate_score ⟨50, 50, 50, 50⟩ ∧
      ClassificationMetrics.calculate_score ⟨50, 50, 50, 50⟩ ≤ 1) := by
  refine ⟨⟨by norm_num, by norm_num⟩, ?_⟩
  exact (composite_score_range_and_formula ⟨50, 50, 50, 50⟩ (by norm_num)
    (by norm_num) (by norm_num) (by norm_num) (by norm_num) (by norm_num)
    (by norm_num) (by norm_num)).1

/-- C9: `calculate_score` is the weighted sum of its (metric, weight) pairs —
expressed through `weightedPairScore`, which is invariant under any
permutation of the pairs — and, for each metric whose weight is positive,
increasing that metric while the others are fixed never decreases the
composite score. -/
theorem composite_score_symmetry_and_monotonicity :
    ∀ (m : ClassificationMetrics) (w1 w2 w3 w4 : ℚ),
      m.calculate_score w1 w2 w3 w4 = weightedPairScore
        [(m.semantic_autonomy, w1), (m.legal_relevance, w2),
         (m.concept_density, w3), (m.context_coherence, w4)] ∧
      (∀ l l' : List (ℚ × ℚ), l.Perm l' →
        weightedPairScore l = weightedPairScore l') ∧
      (∀ x, 0 < w1 → m.semantic_autonomy ≤ x →
        m.calculate_score w1 w2 w3 w4 ≤
          ClassificationMetrics.calculate_score
            ⟨x, m.legal_relevance, m.concept_density, m.context_coherence⟩
            w1 w2 w3 w4) ∧
      (∀ x, 0 < w2 → m.legal_relevance ≤ x →
        m.calculate_score w1 w2 w3 w4 ≤
          ClassificationMetrics.calculate_score
            ⟨m.semantic_autonomy, x, m.concept_density, m.context_coherence⟩
            w1 w2 w3 w4) ∧
      (∀ x, 0 < w3 → m.concept_density ≤ x →
        m.calculate_score w1 w2 w3 w4 ≤
          ClassificationMetrics.calculate_score
            ⟨m.semantic_autonomy, m.legal_relevance, x, m.context_coherence⟩
            w1 w2 w3 w4) ∧
      (∀ x, 0 < w4 → m.context_coherence ≤ x →
        m.calculate_score w1 w2 w3 w4 ≤
          ClassificationMetrics.calculate_score
            ⟨m.semantic_autonomy, m.legal_relevance, m.concept_density, x⟩
            w1 w2 w3 w4) := by
  intro m w1 w2 w3 w4
  refine ⟨?_, ?_, ?_, ?_, ?_, ?_⟩
  · unfold ClassificationMetrics.calculate_score weightedPairScore
    apply congrArg round4
    simp
    ring
  · intro l l' hp
    unfold weightedPairScore
    rw [(hp.map (fun p => p.1 / 100 * p.2)).sum_eq]
  · intro x hw hle
    unfold ClassificationMetrics.calculate_score
    apply round4_mono
    have h : m.semantic_autonomy / 100 * w1 ≤ x / 100 * w1 :=
      mul_le_mul_of_nonneg_right (by linarith) hw.le
    dsimp only
    linarith
  · intro x hw hle
    unfold ClassificationMetrics.calculate_score
    apply round4_mono
    have h : m.legal_relevance / 100 * w2 ≤ x / 100 * w2 :=
      mul_le_mul_of_nonneg_right (by linarith) hw.le
    dsimp only
    linarith
  · intro x hw hle
    unfold ClassificationMetrics.calculate_score
    apply round4_mono
    have h : m.concept_density / 100 * w3 ≤ x / 100 * w3 :=
      mul_le_mul_of_nonneg_right (by linarith) hw.le
    dsimp only
    linarith
  · intro x hw hle
    unfold ClassificationMetrics.calculate_score
    apply round4_mono
    have h : m.context_coherence / 100 * w4 ≤ x / 100 * w4 :=
      mul_le_mul_of_nonneg_right (by linarith) hw.le
    dsimp only
    linarith

/-- C9 witness: the pair list may be permuted without changing the score, and
raising the first metric from 10 to 50 (weight 0.3 > 0) does not decrease the
composite score. -/
theorem composite_score_symmetry_witness :
    ((0:ℚ) < 30/100 ∧ (10:ℚ) ≤ 50) ∧
    weightedPairScore [(10, 30/100), (20, 40/100)] =
      weightedPairScore [(20, 40/100), (10, 30/100)] ∧
    ClassificationMetrics.calculate_score ⟨10, 20, 30, 40⟩ ≤
      ClassificationMetrics.calculate_score ⟨50, 20, 30, 40⟩ := by
  refine ⟨⟨by norm_num, by norm_num⟩, ?_, ?_⟩
  · exact (composite_score_symmetry_and_monotonicity ⟨10, 20, 30, 40⟩
      (30/100) (40/100) (20/100) (10/100)).2.1 _ _ (List.Perm.swap _ _ _)
  · exact (composite_score_symmetry_and_monotonicity ⟨10, 20, 30, 40⟩
      (30/100) (40/100) (20/100) (10/100)).2.2.1 50 (by norm_num) (by norm_num)

/-- C6: for every non-empty candidate list, the adaptive batch size is
obtained by sorting the text lengths ascending, reading the element at index
`floor(0.9 · N)` (clamped to the last element — the clamp is vacuous for
non-empty lists since `9N/10 < N`), and mapping it through the step function
P90 > 5000 → 2, > 3000 → 3, > 1500 → 5, else 10; on lengths
`[100]*9 ++ [6000]` the index is 9, the P90 value 6000, and the size 2. -/
theorem optimal_batch_size_p90 :
    (∀ sections : List Section, sections ≠ [] →
      calculate_optimal_batch_size sections =
        (let lengths := sortAsc (sections.map Section.text_length)
         let p90 := lengths.getD
           (min (sections.length * 9 / 10) (sections.length - 1)) 0
         if 5000 < p90 then 2 else if 3000 < p90 then 3
         else if 1500 < p90 then 5 else 10)) ∧
    p90Sections.length * 9 / 10 = 9 ∧
    (sortAsc (p90Sections.map Section.text_length)).getD 9 0 = 6000 ∧
    calculate_optimal_batch_size p90Sections = 2 := by
  refine ⟨?_, by rfl, by rfl, by rfl⟩
  intro sections hne
  unfold calculate_optimal_batch_size
  have hN : 0 < sections.length := List.length_pos.mpr hne
  have hlen : (sortAsc (sections.map Section.text_length)).length =
      sections.length := by
    rw [length_sortAsc, List.length_map]
  have hidx : sections.length * 9 / 10 < sections.length := by omega
  have hmin : min (sections.length * 9 / 10) (sections.length - 1) =
      sections.length * 9 / 10 := by omega
  dsimp only
  rw [hlen, hmin, if_pos hidx]

/-- C6 witness: the worked example applied through the general statement. -/
theorem optimal_batch_size_p90_witness :
    p90Sections ≠ [] ∧ calculate_optimal_batch_size p90Sections = 2 := by
  refine ⟨by simp [p90Sections], ?_⟩
  rw [optimal_batch_size_p90.1 p90Sections (by simp [p90Sections])]
  rfl

/-- C10: a flashcard whose front text (after right-stripping) does not end
with a question mark is marked invalid by `Question.validate`, with the
corresponding error recorded; consequently a flashcard can only reach
validated status when its front text ends with a question mark. -/
theorem flashcard_requires_question_mark :
    ∀ (q : Question) (anverso reverso : String),
      q.type = .FLASHCARD → q.content = .flashcard anverso reverso →
      ((endsWithQuestionMark anverso = false →
        q.validate.1.status = .invalid ∧
        "Frente de flashcard debe terminar con \x27?\x27" ∈
          q.validate.1.validation_errors ∧
        q.validate.2 = false) ∧
       (q.validate.1.status = .validated →
        endsWithQuestionMark anverso = true)) := by
  intro q a r htype hcontent
  have main : endsWithQuestionMark a = false →
      q.validate.1.status = .invalid ∧
      "Frente de flashcard debe terminar con \x27?\x27" ∈
        q.validate.1.validation_errors ∧
      q.validate.2 = false := by
    intro hq
    have herr : "Frente de flashcard debe terminar con \x27?\x27" ∈
        q.validate_flashcard_errors := by
      simp [Question.validate_flashcard_errors, hcontent, hq]
    have hne : (if pyStrip q.question_text = "" then ["Pregunta vacía"]
        else []) ++ q.validate_flashcard_errors ≠ [] := by
      intro h0
      rcases List.append_eq_nil.mp h0 with ⟨-, h2⟩
      rw [h2] at herr
      exact List.not_mem_nil _ herr
    have hval : q.validate =
        ({ q with
            status := QuestionStatus.invalid
            validation_errors :=
              (if pyStrip q.question_text = "" then ["Pregunta vacía"]
                else []) ++ q.validate_flashcard_errors },
          false) := by
      unfold Question.validate
      rw [htype]
      dsimp only
      rw [if_pos hne]
    rw [hval]
    exact ⟨rfl, List.mem_append_right _ herr, rfl⟩
  refine ⟨main, ?_⟩
  intro hv
  by_contra hq
  have hq' : endsWithQuestionMark a = false := by
    cases h : endsWithQuestionMark a
    · rfl
    · exact absurd h hq
  rcases main hq' with ⟨hs, -, -⟩
  rw [hv] at hs
  exact QuestionStatus.noConfusion hs

/-- C10 witness: the concrete flashcard whose front is the statement
`"El plazo es de 30 días"` is marked invalid with the question-mark error. -/
theorem flashcard_requires_question_mark_witness :
    statementFlashcard.type = .FLASHCARD ∧
    endsWithQuestionMark "El plazo es de 30 días" = false ∧
    statementFlashcard.validate.1.status = .invalid ∧
    "Frente de flashcard debe terminar con \x27?\x27" ∈
      statementFlashcard.validate.1.validation_errors := by
  refine ⟨rfl, by rfl, ?_, ?_⟩
  · exact ((flashcard_requires_question_mark statementFlashcard
      "El plazo es de 30 días" "30 días" rfl rfl).1 (by rfl)).1
  · exact ((flashcard_requires_question_mark statementFlashcard
      "El plazo es de 30 días" "30 días" rfl rfl).1 (by rfl)).2.1

lemma isEmpty_false_of_ne_nil {α : Type} {l : List α} (h : l ≠ []) :
    l.isEmpty = false := by
  cases l with
  | nil => exact absurd rfl h
  | cons a rest => rfl

lemma dictGet_remap_of_int (d : List (String × Json)) (sections : List Section)
    (r : Int) (hne : sections ≠ [])
    (hget : dictGet d "section_id" = some (.int r)) :
    dictGet (remapOrigenData d sections) "section_id" =
      some (.int (if 1 ≤ r ∧ r ≤ (sections.length : Int)
        then (sections.getD (r - 1).toNat default).id
        else (sections.headD default).id)) := by
  have hempty : sections.isEmpty = false := isEmpty_false_of_ne_nil hne
  simp only [remapOrigenData, hget, hempty, Bool.not_false, Bool.and_self,
    eq_self_iff_true, if_true]
  by_cases hr : 0 ≤ r - 1 ∧ r - 1 < (sections.length : Int)
  · rw [if_pos hr, if_pos (show 1 ≤ r ∧ r ≤ (sections.length : Int) by omega)]
    split_ifs with hpage
    · rw [dictGet_dictSet_ne _ _ _ _ (by decide : ("page" : String) ≠ "section_id")]
      exact dictGet_dictSet_self _ _ _
    · exact dictGet_dictSet_self _ _ _
  · rw [if_neg hr, if_neg (show ¬(1 ≤ r ∧ r ≤ (sections.length : Int)) by omega)]
    exact dictGet_dictSet_self _ _ _

lemma dictGet_remap_of_absent (d : List (String × Json))
    (sections : List Section) (hne : sections ≠ [])
    (hget : dictGet d "section_id" = none) :
    dictGet (remapOrigenData d sections) "section_id" =
      some (.int (sections.headD default).id) := by
  have hempty : sections.isEmpty = false := isEmpty_false_of_ne_nil hne
  have hhas : dictHas d "section_id" = false := by
    unfold dictHas
    unfold dictGet at hget
    cases hfind : List.find? (fun kv => kv.1 == "section_id") d with
    | none => rfl
    | some kv => rw [hfind] at hget; simp at hget
  simp only [remapOrigenData, hget, hempty, hhas, Bool.not_false,
    Bool.false_and, Bool.false_eq_true, if_false, Bool.true_or, Bool.true_and,
    Bool.and_self, eq_self_iff_true, if_true]
  exact dictGet_dictSet_self _ _ _

lemma origin_from_dict_section_id (data : List (String × Json)) (o : Origin)
    (v : Int) (hget : dictGet data "section_id" = some (.int v))
    (hok : Origin.from_dict data = .ok o) : o.section_id = v := by
  unfold Origin.from_dict at hok
  obtain ⟨c, hc, hok⟩ := except_bind_ok hok
  obtain ⟨sid, hsid, hok⟩ := except_bind_ok hok
  obtain ⟨pg, hpg, hok⟩ := except_bind_ok hok
  obtain ⟨tl, htl, hok⟩ := except_bind_ok hok
  injection hok with ho
  rw [show dictGetD data "section_id" (dictGetD data "id_seccion" (.int 0)) =
      .int v from by simp [dictGetD, hget]] at hsid
  simp only [pyInt, Except.ok.injEq] at hsid
  rw [← ho]
  exact hsid.symm

/-- C2: for a non-empty batch, a raw item whose origin reports an integer
section index `r` is resolved to the absolute id of the batch's `(r-1)`-th
section when `1 ≤ r ≤ N`, and to the first section's absolute id when `r` is
out of range; an item reporting no index at all also resolves to the first
section's absolute id. -/
theorem section_index_remapping :
    ∀ (sections : List Section) (d : List (String × Json))
      (document_id : String) (o : Origin),
      sections ≠ [] → (d.map Prod.fst).Nodup →
      ((∀ r : Int, dictGet d "section_id" = some (.int r) →
          resolveOrigin d sections document_id = .ok o →
          o.section_id = (if 1 ≤ r ∧ r ≤ (sections.length : Int)
            then (sections.getD (r - 1).toNat default).id
            else (sections.headD default).id)) ∧
       (dictGet d "section_id" = none →
          resolveOrigin d sections document_id = .ok o →
          o.section_id = (sections.headD default).id)) := by
  intro sections d document_id o hne hnd
  constructor
  · intro r hget hok
    have hrm := dictGet_remap_of_int d sections r hne hget
    have hmerged : dictGet (dictMerge [("document_id", .str document_id)]
        (remapOrigenData d sections)) "section_id" =
        some (.int (if 1 ≤ r ∧ r ≤ (sections.length : Int)
          then (sections.getD (r - 1).toNat default).id
          else (sections.headD default).id)) := by
      rw [dictGet_dictMerge _ _ _ (nodup_keys_remapOrigenData d sections hnd),
        hrm]
    exact origin_from_dict_section_id _ o _ hmerged hok
  · intro hget hok
    have hrm := dictGet_remap_of_absent d sections hne hget
    have hmerged : dictGet (dictMerge [("document_id", .str document_id)]
        (remapOrigenData d sections)) "section_id" =
        some (.int (sections.headD default).id) := by
      rw [dictGet_dictMerge _ _ _ (nodup_keys_remapOrigenData d sections hnd),
        hrm]
    exact origin_from_dict_section_id _ o _ hmerged hok

/-- C2 witness: reported index 2 against the batch with absolute ids
[101, 102, 103] resolves to an origin with section id 102. -/
theorem section_index_remapping_witness :
    batchSections ≠ [] ∧ resolvedOriginExample.section_id = 102 := by
  refine ⟨by decide, ?_⟩
  have h := (section_index_remapping batchSections [("section_id", .int 2)]
    "doc" resolvedOriginExample (by decide) (by decide)).1 2 (by rfl) (by rfl)
  rw [if_pos (by decide : 1 ≤ (2:Int) ∧ (2:Int) ≤ (batchSections.length : Int))] at h
  exact h.trans (by rfl)
